import Mathlib

set_option maxRecDepth 100000

/-!
Verification of the term-resolution core of the `desbuguei` glossary
application: the identifier normalizer `normalizeId`, the read-through
cache resolver `getTermData`, and the batch seeder `seedDatabase`
(source: `src/unnamed/part_000`, store gate from `src/services/supabase.ts`).

JavaScript strings are modelled as Lean `String` (lists of characters).
`String.prototype.toLowerCase` is embedded on its ASCII fragment
(the only fragment the downstream `[^a-z0-9]` replacement can preserve),
`String.prototype.trim` with the standard JS whitespace set, and the two
regex replacements of `normalizeId` as a character map followed by a
run-collapsing pass.
-/

/-- JS `trim` whitespace: space, tab, LF, VT, FF, CR, NBSP, line/paragraph
separator, BOM (the common members of the ECMAScript WhiteSpace and
LineTerminator sets). -/
def isJSWhitespace (c : Char) : Bool :=
  c.toNat = 32 || c.toNat = 9 || c.toNat = 10 || c.toNat = 11 ||
  c.toNat = 12 || c.toNat = 13 || c.toNat = 160 || c.toNat = 8232 ||
  c.toNat = 8233 || c.toNat = 65279

/-- Embedding of `String.prototype.toLowerCase` on the ASCII range:
code points 65..90 (`A`..`Z`) are shifted down by 32, everything else is
unchanged. (Full Unicode case mapping differs on non-ASCII characters,
but every non-ASCII character is rewritten to `-` by the step that
follows in `normalizeId`, so the claims checked here are insensitive
to that difference.) -/
def jsToLower (c : Char) : Char :=
  if 65 ≤ c.toNat && c.toNat ≤ 90 then Char.ofNat (c.toNat + 32) else c

/-- Embedding of `String.prototype.trim`: drop JS whitespace from both ends. -/
def jsTrim (l : List Char) : List Char :=
  ((l.dropWhile isJSWhitespace).reverse.dropWhile isJSWhitespace).reverse

/-- `text.toLowerCase()` lifted to strings. -/
def jsToLowerStr (s : String) : String :=
  String.mk (s.data.map jsToLower)

/-- `text.trim()` lifted to strings. -/
def jsTrimStr (s : String) : String :=
  String.mk (jsTrim s.data)

/-- Character class `[a-z0-9]` (code points 97..122 and 48..57). -/
def isLowerAlnum (c : Char) : Bool :=
  (97 ≤ c.toNat && c.toNat ≤ 122) || (48 ≤ c.toNat && c.toNat ≤ 57)

/-- One character of `.replace(/[^a-z0-9]/g, '-')`: characters outside
`[a-z0-9]` become `-`. -/
def dashMap (c : Char) : Char :=
  if isLowerAlnum c then c else '-'

/-- the second regex replacement of `normalizeId` (dash-run collapsing):
every run of dashes becomes a single dash.
The flag records whether the previously emitted character was a dash. -/
def collapseAux : Bool → List Char → List Char
  | _, [] => []
  | prevDash, c :: rest =>
    if c = '-' then
      if prevDash then collapseAux true rest
      else '-' :: collapseAux true rest
    else c :: collapseAux false rest

/-- `normalizeId` from `src/unnamed/part_000` lines 35-37:
lower-case, trim, replace each character outside `[a-z0-9]` with a dash,
then collapse dash runs (the two chained regex replacements of the source). -/
def normalizeId (text : String) : String :=
  String.mk (collapseAux false ((jsTrim (text.data.map jsToLower)).map dashMap))

/-- `true` when no two adjacent characters are both dashes. -/
def noDoubleDash : List Char → Bool
  | [] => true
  | [_] => true
  | a :: b :: rest => !(a = '-' && b = '-') && noDoubleDash (b :: rest)

/-- Decidable match of the regular expression `^[a-z0-9]+(-[a-z0-9]+)*$`
from the spec (section 8): equivalently, the string is nonempty, drawn
from `[a-z0-9-]`, has no dash at either end and no two adjacent dashes. -/
def specRegexMatch (s : String) : Bool :=
  !s.data.isEmpty &&
  s.data.all (fun c => isLowerAlnum c || c = '-') &&
  (match s.data.head? with
   | some c => !(c = '-')
   | none => false) &&
  (match s.data.getLast? with
   | some c => !(c = '-')
   | none => false) &&
  noDoubleDash s.data

/-- One `{title, description}` pair, the element shape of the `examples`
and `analogies` sequences of `TermData`. -/
structure ExamplePair where
  title : String
  description : String
deriving DecidableEq, Repr

/-- The `{title, content}` pair used for `practicalUsage`. -/
structure PracticalUsage where
  title : String
  content : String
deriving DecidableEq, Repr

/-- The `TermData` record (data model of spec section 3, field set as used
throughout `src/unnamed/part_000`). -/
structure TermData where
  id : String
  term : String
  fullTerm : String
  category : String
  definition : String
  phonetic : String
  slang : Option String
  translation : String
  examples : List ExamplePair
  analogies : List ExamplePair
  practicalUsage : PracticalUsage
  relatedTerms : List String
deriving DecidableEq, Repr

/-- The parsed JSON payload returned by the generation backend, before the
post-processing step of `getTermData`. Fields that the post-processing
step guards (`id`, `fullTerm`, `examples`, `analogies`, `practicalUsage`,
`relatedTerms`) are optional; `none` models a field that is absent or (for
the three sequence fields, which the code guards with `Array.isArray`) not
a sequence, and `some ""` models the falsy empty string for `fullTerm`. -/
structure GenPayload where
  id : Option String
  term : String
  fullTerm : Option String
  category : String
  definition : String
  phonetic : String
  slang : Option String
  translation : String
  examples : Option (List ExamplePair)
  analogies : Option (List ExamplePair)
  practicalUsage : Option PracticalUsage
  relatedTerms : Option (List String)
deriving DecidableEq, Repr

/-- Post-processing of a generated payload (`src/unnamed/part_000` lines
124-135): force `id` to the slug `dbId`, default the three sequence
fields to `[]` when absent or not sequences, default `fullTerm` to `term`
when falsy (absent or empty), and default `practicalUsage` to the fixed
placeholder pair when absent. -/
def postProcess (p : GenPayload) (dbId : String) : TermData :=
  { id := dbId
    term := p.term
    fullTerm :=
      match p.fullTerm with
      | some s => if s = "" then p.term else s
      | none => p.term
    category := p.category
    definition := p.definition
    phonetic := p.phonetic
    slang := p.slang
    translation := p.translation
    examples := p.examples.getD []
    analogies := p.analogies.getD []
    practicalUsage :=
      p.practicalUsage.getD
        ⟨"Contexto Geral", "Termo usado frequentemente em reuniões de tecnologia."⟩
    relatedTerms := p.relatedTerms.getD [] }

/-- Outcome of the Supabase point query `.eq('id', dbId).single()` wrapped
in its `try`: a row with truthy `content` was found, or no such row (the
`data && data.content` guard fails), or the query threw (the `catch`
branch, which logs and falls through). -/
inductive StoreQuery where
  | found (content : TermData)
  | missing
  | failed
deriving DecidableEq, Repr

/-- Outcome of the generation tier for one input: the call returned, its
`response.text` was truthy and `JSON.parse` succeeded; or the call
returned with falsy `response.text`; or `generateContent` threw; or
`JSON.parse` threw. -/
inductive GenOutcome where
  | success (payload : GenPayload)
  | emptyText
  | callError
  | parseError
deriving DecidableEq, Repr

/-- The environment one resolution runs in: whether the Supabase secrets
are configured (`isSupabaseConfigured`, `src/services/supabase.ts` lines
11-13), what the store query returns for each id, and what the generation
backend does for each raw term. -/
structure ResolveEnv where
  configured : Bool
  store : String → StoreQuery
  gen : String → GenOutcome

/-- Which effects a resolution performed: whether the store was queried,
the local seed set consulted, the generation backend called, and the
fire-and-forget store insert started. -/
structure ResolveTrace where
  storeQueried : Bool
  seedChecked : Bool
  genCalled : Bool
  storeInsertStarted : Bool
deriving DecidableEq, Repr

/-- The single seed record of the mock database (`localDatabase` in
`src/unnamed/part_000` lines 6-32), keyed by `"api"`. -/
def apiSeedRecord : TermData :=
  { id := "api"
    term := "API"
    fullTerm := "Application Programming Interface"
    category := "Desenvolvimento"
    definition := "APIs permitem que diferentes sistemas de software conversem entre si automaticamente, eliminando tarefas manuais e conectando sua empresa ao mercado digital."
    phonetic := "Ei-pi-ai"
    slang := none
    translation := "INTERFACE DE PROGRAMAÇÃO DE APLICATIVOS"
    examples :=
      [⟨"AUTOMAÇÃO DE FLUXOS", "Elimina a intervenção humana ao conectar processos operacionais críticos."⟩,
       ⟨"SINCRONIZAÇÃO DE DADOS", "Mantém Vendas, RH e Financeiro atualizados em todas as plataformas."⟩]
    analogies :=
      [⟨"O GARÇOM NO RESTAURANTE", "Você (cliente) pede ao garçom (API), que leva o pedido à cozinha (sistema) e traz o prato."⟩,
       ⟨"TOMADA UNIVERSAL", "Interface padrão para conectar qualquer aparelho à energia sem saber como a rede funciona."⟩]
    practicalUsage :=
      ⟨"Na reunião de alinhamento (Daily)", "Pessoal, a API de pagamentos caiu porque o gateway mudou a autenticação. Vou precisar refatorar a integração hoje à tarde pra gente voltar a vender."⟩
    relatedTerms := ["Endpoint", "JSON", "REST", "Webhook", "Gateway", "SDK"] }

/-- The static mock database as a lookup function: it holds exactly the
key `"api"`. -/
def localDatabase (key : String) : Option TermData :=
  if key = "api" then some apiSeedRecord else none

/-- The one error message `getTermData` can throw
(`throw new Error("Termo não encontrado.")`). -/
def notFoundMsg : String := "Termo não encontrado."

/-- The key used for the local seed lookup:
`termId.toLowerCase().trim()` (`rawId` in the source). -/
def rawKey (termId : String) : String :=
  jsTrimStr (jsToLowerStr termId)

/-- Tiers B and C of `getTermData` (seed lookup, then generation with
post-processing and write-back), shared by the configured and the
unconfigured store paths. `storeQueried` records whether tier A ran. -/
def afterStore (env : ResolveEnv) (termId dbId : String)
    (storeQueried : Bool) : Except String TermData × ResolveTrace :=
  match localDatabase (rawKey termId) with
  | some rec => (Except.ok rec, ⟨storeQueried, true, false, false⟩)
  | none =>
    match env.gen termId with
    | GenOutcome.success p =>
      (Except.ok (postProcess p dbId), ⟨storeQueried, true, true, env.configured⟩)
    | _ => (Except.error notFoundMsg, ⟨storeQueried, true, true, false⟩)

/-- `getTermData` (`src/unnamed/part_000` lines 39-161): tier A queries the
store by the slug `dbId` when configured and returns a found record; tier
B returns the seed record at the raw lower-cased key; tier C calls the
generation backend, post-processes a successful payload (starting the
fire-and-forget insert when the store is configured) and otherwise falls
through to `throw new Error("Termo não encontrado.")`, the single error of
the function. The second component traces which tiers ran. -/
def getTermData (env : ResolveEnv) (termId : String) :
    Except String TermData × ResolveTrace :=
  let dbId := normalizeId termId
  if env.configured then
    match env.store dbId with
    | StoreQuery.found content => (Except.ok content, ⟨true, false, false, false⟩)
    | _ => afterStore env termId dbId true
  else
    afterStore env termId dbId false

/-- The built-in default term list of `seedDatabase`
(`src/unnamed/part_000` lines 170-175). -/
def defaultList : List String :=
  ["Kubernetes", "Docker", "CI/CD", "Microservices", "Serverless",
   "React", "Node.js", "Python", "Machine Learning", "LLM",
   "Cybersecurity", "Zero Trust", "Firewall", "VPN", "Encryption",
   "Agile", "Scrum", "Kanban", "MVP", "Product Market Fit"]

/-- The per-term loop of `seedDatabase`: blank terms (`!term.trim()`) are
skipped; each processed term logs a progress line, then either the
success line or — when `getTermData` threw — the error line, and the walk
continues with the rest. Returns the emitted log lines and the list of
terms the resolver was called on, in order. -/
def seedLoop (env : ResolveEnv) : List String → List String × List String
  | [] => ([], [])
  | term :: rest =>
    if jsTrimStr term = "" then seedLoop env rest
    else
      let itemLogs :=
        ("Processando: " ++ term ++ "...") ::
          (match (getTermData env term).1 with
           | Except.ok _ => ["✅ " ++ term ++ " salvo/verificado com sucesso."]
           | Except.error _ => ["❌ Erro ao processar " ++ term ++ ": Tente novamente."])
      let restResult := seedLoop env rest
      (itemLogs ++ restResult.1, term :: restResult.2)

/-- `seedDatabase` (`src/unnamed/part_000` lines 163-198): with the store
unconfigured it emits the single error line and returns; otherwise it
processes the custom list when one was supplied and nonempty
(`customList && customList.length > 0`), else the default list, framing
the walk with the two opening lines and the completion line. The first
component is the sequence of strings passed to the `onProgress` callback;
the second is the list of terms the resolver was invoked on. The 1.5 s
inter-item delay is pure timing and is not modelled. -/
def seedDatabase (env : ResolveEnv) (customList : Option (List String)) :
    List String × List String :=
  if env.configured = false then
    (["ERRO: Supabase não configurado. Verifique suas chaves API."], [])
  else
    let listToProcess :=
      match customList with
      | some l => if 0 < l.length then l else defaultList
      | none => defaultList
    let loopResult := seedLoop env listToProcess
    (("Iniciando carga de " ++ toString listToProcess.length ++ " termos...") ::
       "Atenção: Isso consome tokens da sua API Key." ::
         (loopResult.1 ++
           ["Carga finalizada! Seu banco de dados agora está mais inteligente."]),
     loopResult.2)

/-- Store environment for the C3 witness: at key `"api"` it holds a record
that differs from the seed record for the same raw key. -/
def c3StoredRec : TermData :=
  { apiSeedRecord with definition := "Registro persistido, diferente do seed." }

/-- Environment for the C3 witness: configured store holding `c3StoredRec`
at `"api"`; the generation backend would fail if it were reached. -/
def c3Env : ResolveEnv :=
  { configured := true
    store := fun i => if i = "api" then StoreQuery.found c3StoredRec else StoreQuery.missing
    gen := fun _ => GenOutcome.callError }

/-- Environment for the C4 witness: unconfigured store, failing generation
backend (which must never be reached). -/
def c4Env : ResolveEnv :=
  { configured := false
    store := fun _ => StoreQuery.failed
    gen := fun _ => GenOutcome.callError }

/-- Payload for the C5 witness: the backend answers with a wrong `id`. -/
def c5Payload : GenPayload :=
  { id := some "wrong-id"
    term := "Foo"
    fullTerm := some "Foo Framework"
    category := "Desenvolvimento"
    definition := "def"
    phonetic := "fu"
    slang := none
    translation := "tr"
    examples := some []
    analogies := some []
    practicalUsage := some ⟨"t", "c"⟩
    relatedTerms := some [] }

/-- Environment for the C5 witness: unconfigured store, generation
succeeds with `c5Payload`. -/
def c5Env : ResolveEnv :=
  { configured := false
    store := fun _ => StoreQuery.missing
    gen := fun _ => GenOutcome.success c5Payload }

/-- Environment whose generation call throws. -/
def c2CallFailEnv : ResolveEnv :=
  { configured := false
    store := fun _ => StoreQuery.missing
    gen := fun _ => GenOutcome.callError }

/-- Environment whose generation response fails to parse as JSON. -/
def c2ParseFailEnv : ResolveEnv :=
  { configured := false
    store := fun _ => StoreQuery.missing
    gen := fun _ => GenOutcome.parseError }

/-- Environment whose generation call returns no text: no tier produces a
record, the NotFound case of the spec. -/
def c2NoRecordEnv : ResolveEnv :=
  { configured := false
    store := fun _ => StoreQuery.missing
    gen := fun _ => GenOutcome.emptyText }

/-- Payload for the C6 witness: every guarded field absent. -/
def c6Payload : GenPayload :=
  { id := none
    term := "Webhook"
    fullTerm := none
    category := "Desenvolvimento"
    definition := "def"
    phonetic := "ueb-ruc"
    slang := none
    translation := "tr"
    examples := none
    analogies := none
    practicalUsage := none
    relatedTerms := none }

/-- Environment for the C7 witness: unconfigured store. -/
def c7Env : ResolveEnv :=
  { configured := false
    store := fun _ => StoreQuery.missing
    gen := fun _ => GenOutcome.emptyText }

/-- Payload the C8 witness environment returns on successful items. -/
def c8Payload : GenPayload :=
  { id := none
    term := "x"
    fullTerm := none
    category := "Desenvolvimento"
    definition := "d"
    phonetic := "f"
    slang := none
    translation := "t"
    examples := none
    analogies := none
    practicalUsage := none
    relatedTerms := none }

/-- Environment for the C8 witness: configured store that never holds a
record, generation fails exactly on the raw term `"Beta"`. -/
def c8Env : ResolveEnv :=
  { configured := true
    store := fun _ => StoreQuery.missing
    gen := fun t => if t = "Beta" then GenOutcome.callError
                    else GenOutcome.success c8Payload }

/-- Environment for the C10 witness: configured store, generation always
returns no text. -/
def c10Env : ResolveEnv :=
  { configured := true
    store := fun _ => StoreQuery.missing
    gen := fun _ => GenOutcome.emptyText }

/-- Every character of a dash-collapsed list comes from the input list or
is a dash. -/
theorem mem_collapseAux {c : Char} :
    ∀ (l : List Char) (b : Bool), c ∈ collapseAux b l → c ∈ l ∨ c = '-'
  | [], _, h => by simp [collapseAux] at h
  | a :: rest, b, h => by
    by_cases ha : a = '-'
    · subst ha
      cases b with
      | true =>
        simp only [collapseAux, if_pos rfl] at h
        rcases mem_collapseAux rest true h with h' | h'
        · exact Or.inl (List.mem_cons_of_mem _ h')
        · exact Or.inr h'
      | false =>
        simp only [collapseAux, if_pos rfl] at h
        rcases List.mem_cons.mp h with h' | h'
        · exact Or.inr h'
        · rcases mem_collapseAux rest true h' with h'' | h''
          · exact Or.inl (List.mem_cons_of_mem _ h'')
          · exact Or.inr h''
    · simp only [collapseAux, if_neg ha] at h
      rcases List.mem_cons.mp h with h' | h'
      · exact Or.inl (h' ▸ List.mem_cons_self _ _)
      · rcases mem_collapseAux rest false h' with h'' | h''
        · exact Or.inl (List.mem_cons_of_mem _ h'')
        · exact Or.inr h''

/-- With the flag set, the collapsed list never starts with a dash. -/
theorem head_collapseAux_true :
    ∀ l : List Char, (collapseAux true l).head? = some '-' → False
  | [], h => by simp [collapseAux] at h
  | a :: rest, h => by
    by_cases ha : a = '-'
    · subst ha
      simp only [collapseAux, if_pos rfl] at h
      exact head_collapseAux_true rest h
    · simp only [collapseAux, if_neg ha, List.head?_cons, Option.some.injEq] at h
      exact ha h

/-- Dash-collapsing leaves no two adjacent dashes. -/
theorem noDoubleDash_collapseAux :
    ∀ (l : List Char) (b : Bool), noDoubleDash (collapseAux b l) = true
  | [], b => by cases b <;> rfl
  | a :: rest, b => by
    by_cases ha : a = '-'
    · subst ha
      cases b with
      | true =>
        simp only [collapseAux, if_pos rfl]
        exact noDoubleDash_collapseAux rest true
      | false =>
        simp only [collapseAux, if_pos rfl]
        cases hrest : collapseAux true rest with
        | nil => rfl
        | cons d ds =>
          have hd : ¬ d = '-' := by
            intro hdd
            exact head_collapseAux_true rest (by rw [hrest, hdd]; rfl)
          have htail : noDoubleDash (d :: ds) = true := by
            rw [← hrest]; exact noDoubleDash_collapseAux rest true
          simp [noDoubleDash, hd, htail]
    · simp only [collapseAux, if_neg ha]
      cases hrest : collapseAux false rest with
      | nil => rfl
      | cons d ds =>
        have htail : noDoubleDash (d :: ds) = true := by
          rw [← hrest]; exact noDoubleDash_collapseAux rest false
        simp [noDoubleDash, ha, htail]

/-- Every character of `normalizeId s` is a lowercase alphanumeric or a
dash. -/
theorem normalizeId_chars (s : String) :
    ∀ c ∈ (normalizeId s).data, isLowerAlnum c = true ∨ c = '-' := by
  intro c hc
  have hc' : c ∈ (jsTrim (s.data.map jsToLower)).map dashMap ∨ c = '-' :=
    mem_collapseAux _ false hc
  rcases hc' with hc' | hc'
  · rcases List.mem_map.mp hc' with ⟨x, _, hx⟩
    by_cases hax : isLowerAlnum x = true
    · left
      rw [← hx]
      simp [dashMap, hax]
    · right
      rw [← hx]
      simp [dashMap, hax]
  · exact Or.inr hc'

/-- Lower-casing fixes lowercase alphanumerics and the dash. -/
theorem jsToLower_fixed {c : Char} (h : isLowerAlnum c = true ∨ c = '-') :
    jsToLower c = c := by
  rcases h with h | h
  · simp only [isLowerAlnum, Bool.or_eq_true, Bool.and_eq_true,
      decide_eq_true_eq] at h
    simp only [jsToLower, Bool.and_eq_true, decide_eq_true_eq, ite_eq_right_iff]
    intro hle
    omega
  · subst h
    decide

/-- Lowercase alphanumerics and the dash are not JS whitespace. -/
theorem not_ws_of_fixed {c : Char} (h : isLowerAlnum c = true ∨ c = '-') :
    isJSWhitespace c = false := by
  rcases h with h | h
  · simp only [isLowerAlnum, Bool.or_eq_true, Bool.and_eq_true,
      decide_eq_true_eq] at h
    simp only [isJSWhitespace, Bool.or_eq_false_iff, decide_eq_false_iff_not]
    omega
  · subst h
    decide

/-- The dash replacement fixes lowercase alphanumerics and the dash. -/
theorem dashMap_fixed {c : Char} (h : isLowerAlnum c = true ∨ c = '-') :
    dashMap c = c := by
  rcases h with h | h
  · simp [dashMap, h]
  · subst h
    decide

/-- A map that fixes every element of a list is the identity on it. -/
theorem map_fixed {f : Char → Char} :
    ∀ l : List Char, (∀ c ∈ l, f c = c) → l.map f = l
  | [], _ => rfl
  | c :: rest, h => by
    simp only [List.map_cons, h c (List.mem_cons_self _ _),
      map_fixed rest (fun d hd => h d (List.mem_cons_of_mem _ hd))]

/-- `dropWhile` is the identity when no element satisfies the predicate. -/
theorem dropWhile_of_none {p : Char → Bool} :
    ∀ l : List Char, (∀ c ∈ l, p c = false) → l.dropWhile p = l
  | [], _ => rfl
  | c :: rest, h => by
    simp [List.dropWhile_cons, h c (List.mem_cons_self _ _)]

/-- Trimming is the identity on lists without JS whitespace. -/
theorem jsTrim_of_no_ws (l : List Char)
    (h : ∀ c ∈ l, isJSWhitespace c = false) : jsTrim l = l := by
  unfold jsTrim
  rw [dropWhile_of_none l h, dropWhile_of_none l.reverse
    (fun c hc => h c (List.mem_reverse.mp hc)), List.reverse_reverse]

/-- Dash-collapsing is idempotent (for either value of the flag). -/
theorem collapseAux_idem :
    ∀ (l : List Char) (b : Bool), collapseAux b (collapseAux b l) = collapseAux b l
  | [], b => by cases b <;> rfl
  | a :: rest, b => by
    by_cases ha : a = '-'
    · subst ha
      cases b with
      | true =>
        simp only [collapseAux, if_pos rfl]
        exact collapseAux_idem rest true
      | false =>
        simp only [collapseAux, if_pos rfl]
        exact congrArg (List.cons '-') (collapseAux_idem rest true)
    · simp only [collapseAux, if_neg ha]
      exact congrArg (List.cons a) (collapseAux_idem rest false)

/-- C1 counterexample: on input `"a!"` the normalizer returns `"a-"`,
which is neither empty nor a match of `^[a-z0-9]+(-[a-z0-9]+)*$` (it ends
in a hyphen), so the claimed output shape fails. -/
theorem normalizeId_regex_counterexample :
    ¬ (normalizeId "a!" = "" ∨ specRegexMatch (normalizeId "a!") = true) := by
  decide

/-- C1 (amended): for every input string, every character of
`normalizeId s` is a lowercase alphanumeric or a hyphen and no two
adjacent characters are both hyphens; a leading or trailing hyphen is
possible (the source never strips them). -/
theorem normalizeId_shape (s : String) :
    (∀ c ∈ (normalizeId s).data, isLowerAlnum c = true ∨ c = '-') ∧
    noDoubleDash (normalizeId s).data = true :=
  ⟨normalizeId_chars s, noDoubleDash_collapseAux _ false⟩

/-- C9: the identifier normalizer is idempotent:
`normalizeId (normalizeId x) = normalizeId x` for every string `x`. -/
theorem normalizeId_idempotent (x : String) :
    normalizeId (normalizeId x) = normalizeId x := by
  have hchars := normalizeId_chars x
  show String.mk (collapseAux false
      ((jsTrim ((normalizeId x).data.map jsToLower)).map dashMap)) = normalizeId x
  rw [map_fixed _ (fun c hc => jsToLower_fixed (hchars c hc))]
  rw [jsTrim_of_no_ws _ (fun c hc => not_ws_of_fixed (hchars c hc))]
  rw [map_fixed _ (fun c hc => dashMap_fixed (hchars c hc))]
  show String.mk (collapseAux false (collapseAux false
      ((jsTrim (x.data.map jsToLower)).map dashMap))) = normalizeId x
  rw [collapseAux_idem]
  rfl

/-- A successful result of tiers B/C whose trace shows a generation call
carries the forced slug as its `id`. -/
theorem afterStore_id (env : ResolveEnv) (termId dbId : String) (sq : Bool)
    (rec : TermData) (tr : ResolveTrace)
    (h : afterStore env termId dbId sq = (Except.ok rec, tr))
    (hg : tr.genCalled = true) : rec.id = dbId := by
  unfold afterStore at h
  cases hl : localDatabase (rawKey termId) with
  | some r =>
    rw [hl] at h
    simp only [Prod.mk.injEq, Except.ok.injEq] at h
    obtain ⟨h1, h2⟩ := h
    rw [← h2] at hg
    simp at hg
  | none =>
    rw [hl] at h
    cases hgen : env.gen termId with
    | success p =>
      rw [hgen] at h
      simp only [Prod.mk.injEq, Except.ok.injEq] at h
      obtain ⟨h1, h2⟩ := h
      rw [← h1]
      rfl
    | emptyText => rw [hgen] at h; simp at h
    | callError => rw [hgen] at h; simp at h
    | parseError => rw [hgen] at h; simp at h

/-- C3: when the store is configured and its query at the normalized slug
finds a record, `getTermData` returns exactly that record, with the seed
set unconsulted and the generation backend uncalled. -/
theorem store_hit_returns_stored (env : ResolveEnv) (termId : String)
    (rec : TermData) (hc : env.configured = true)
    (hs : env.store (normalizeId termId) = StoreQuery.found rec) :
    getTermData env termId = (Except.ok rec, ⟨true, false, false, false⟩) := by
  simp [getTermData, hc, hs]

/-- Witness for C3 at raw text `"API"`: the stored record (not the seed
record for the same key) comes back, with no seed or generation access. -/
theorem store_hit_returns_stored_witness :
    c3Env.configured = true ∧
    c3Env.store (normalizeId "API") = StoreQuery.found c3StoredRec ∧
    c3StoredRec ≠ apiSeedRecord ∧
    getTermData c3Env "API" = (Except.ok c3StoredRec, ⟨true, false, false, false⟩) :=
  ⟨rfl, by decide, by decide,
    store_hit_returns_stored c3Env "API" c3StoredRec rfl (by decide)⟩

/-- C4: when the store is unconfigured and the mock database holds the
lower-cased trimmed raw key, `getTermData` returns the seed record and the
generation backend is not called. -/
theorem seed_hit_returns_seed (env : ResolveEnv) (termId : String)
    (rec : TermData) (hc : env.configured = false)
    (hl : localDatabase (rawKey termId) = some rec) :
    getTermData env termId = (Except.ok rec, ⟨false, true, false, false⟩) := by
  simp [getTermData, hc, afterStore, hl]

/-- Witness for C4 at raw text `" API "`: its lower-cased trimmed form is
the seed key `"api"`, the seed record is returned, no generation call. -/
theorem seed_hit_returns_seed_witness :
    c4Env.configured = false ∧
    localDatabase (rawKey " API ") = some apiSeedRecord ∧
    getTermData c4Env " API " = (Except.ok apiSeedRecord, ⟨false, true, false, false⟩) :=
  ⟨rfl, by decide,
    seed_hit_returns_seed c4Env " API " apiSeedRecord rfl (by decide)⟩

/-- C5: whenever `getTermData` succeeds and its trace shows the generation
backend was called, the returned record's `id` equals
`normalizeId termId`, whatever the backend returned for `id`. -/
theorem gen_success_forces_id (env : ResolveEnv) (termId : String)
    (rec : TermData) (tr : ResolveTrace)
    (h : getTermData env termId = (Except.ok rec, tr))
    (hg : tr.genCalled = true) : rec.id = normalizeId termId := by
  unfold getTermData at h
  by_cases hc : env.configured = true
  · rw [if_pos hc] at h
    cases hs : env.store (normalizeId termId) with
    | found content =>
      rw [hs] at h
      simp only [Prod.mk.injEq, Except.ok.injEq] at h
      obtain ⟨h1, h2⟩ := h
      rw [← h2] at hg
      simp at hg
    | missing =>
      rw [hs] at h
      exact afterStore_id env termId _ true rec tr h hg
    | failed =>
      rw [hs] at h
      exact afterStore_id env termId _ true rec tr h hg
  · rw [if_neg hc] at h
    exact afterStore_id env termId _ false rec tr h hg

/-- Witness for C5 at raw text `"Foo!"`: resolution succeeds through the
generation tier and the result id is `normalizeId "Foo!" = "foo-"`, not
the backend's `"wrong-id"`. -/
theorem gen_success_forces_id_witness :
    getTermData c5Env "Foo!" =
      (Except.ok (postProcess c5Payload "foo-"), ⟨false, true, true, false⟩) ∧
    c5Payload.id = some "wrong-id" ∧
    (postProcess c5Payload "foo-").id = normalizeId "Foo!" :=
  ⟨rfl, rfl,
    gen_success_forces_id c5Env "Foo!" (postProcess c5Payload "foo-")
      ⟨false, true, true, false⟩ rfl rfl⟩

/-- C2 counterexample: a failed generation call, a JSON parse failure and
the no-record case all surface the one error value
`"Termo não encontrado."` — the code has no GenerationFailed error
distinct from the NotFound error. -/
theorem generation_error_not_distinct :
    (getTermData c2CallFailEnv "grpc").1 = Except.error notFoundMsg ∧
    (getTermData c2ParseFailEnv "grpc").1 = Except.error notFoundMsg ∧
    (getTermData c2NoRecordEnv "grpc").1 = Except.error notFoundMsg :=
  ⟨rfl, rfl, rfl⟩

/-- C2 (amended): when resolution reaches the generation tier (store did
not return a record, seed set missed) and the generation call or the JSON
parse fails, `getTermData` fails with the single error
`"Termo não encontrado."` — the same error used when no tier produced a
record — and no further fallback is attempted (the error is the final
outcome, with every tier already consumed by then). -/
theorem gen_failure_not_found (env : ResolveEnv) (termId : String)
    (hstore : ∀ rec, env.store (normalizeId termId) ≠ StoreQuery.found rec)
    (hseed : localDatabase (rawKey termId) = none)
    (hg : env.gen termId = GenOutcome.callError ∨
          env.gen termId = GenOutcome.parseError) :
    getTermData env termId =
      (Except.error notFoundMsg, ⟨env.configured, true, true, false⟩) := by
  have hafter : ∀ sq : Bool, afterStore env termId (normalizeId termId) sq =
      (Except.error notFoundMsg, ⟨sq, true, true, false⟩) := by
    intro sq
    unfold afterStore
    rw [hseed]
    rcases hg with hg | hg <;> rw [hg]
  by_cases hc : env.configured = true
  · unfold getTermData
    rw [if_pos hc]
    cases hs : env.store (normalizeId termId) with
    | found content => exact absurd hs (hstore content)
    | missing => rw [hafter true, hc]
    | failed => rw [hafter true, hc]
  · unfold getTermData
    rw [if_neg hc]
    rw [hafter false, Bool.eq_false_iff.mpr hc]

/-- Witness for C2 (amended) at raw text `"grpc"` in `c2CallFailEnv`: the
seed set misses, the store finds nothing, the generation call throws, and
the resolution fails with the NotFound message after calling the backend. -/
theorem gen_failure_not_found_witness :
    localDatabase (rawKey "grpc") = none ∧
    c2CallFailEnv.gen "grpc" = GenOutcome.callError ∧
    getTermData c2CallFailEnv "grpc" =
      (Except.error notFoundMsg, ⟨false, true, true, false⟩) :=
  ⟨rfl, rfl,
    gen_failure_not_found c2CallFailEnv "grpc"
      (fun _ h => StoreQuery.noConfusion h) rfl (Or.inl rfl)⟩

/-- C6: post-processing defaults — an absent or non-sequence `examples`
(resp. `analogies`, `relatedTerms`) yields the empty sequence, an absent
`practicalUsage` yields the fixed placeholder pair titled
`"Contexto Geral"`, and an absent `fullTerm` defaults to `term`. -/
theorem postProcess_defaults (p : GenPayload) (dbId : String) :
    (p.examples = none → (postProcess p dbId).examples = []) ∧
    (p.analogies = none → (postProcess p dbId).analogies = []) ∧
    (p.relatedTerms = none → (postProcess p dbId).relatedTerms = []) ∧
    (p.practicalUsage = none → (postProcess p dbId).practicalUsage =
      ⟨"Contexto Geral", "Termo usado frequentemente em reuniões de tecnologia."⟩) ∧
    (p.fullTerm = none → (postProcess p dbId).fullTerm = p.term) := by
  refine ⟨?_, ?_, ?_, ?_, ?_⟩ <;> intro h <;> simp [postProcess, h]

/-- Witness for C6 on `c6Payload`: all five defaults fire. -/
theorem postProcess_defaults_witness :
    (postProcess c6Payload "webhook").examples = [] ∧
    (postProcess c6Payload "webhook").analogies = [] ∧
    (postProcess c6Payload "webhook").relatedTerms = [] ∧
    (postProcess c6Payload "webhook").practicalUsage =
      ⟨"Contexto Geral", "Termo usado frequentemente em reuniões de tecnologia."⟩ ∧
    (postProcess c6Payload "webhook").fullTerm = c6Payload.term :=
  ⟨(postProcess_defaults c6Payload "webhook").1 rfl,
   (postProcess_defaults c6Payload "webhook").2.1 rfl,
   (postProcess_defaults c6Payload "webhook").2.2.1 rfl,
   (postProcess_defaults c6Payload "webhook").2.2.2.1 rfl,
   (postProcess_defaults c6Payload "webhook").2.2.2.2 rfl⟩

/-- The resolver is invoked on exactly the non-blank items of the walked
list, in order, whatever the per-item outcomes are. -/
theorem seedLoop_calls (env : ResolveEnv) :
    ∀ l : List String,
      (seedLoop env l).2 = l.filter (fun t => !(jsTrimStr t == ""))
  | [] => rfl
  | term :: rest => by
    by_cases h : jsTrimStr term = ""
    · simp [seedLoop, h, seedLoop_calls env rest]
    · simp [seedLoop, h, seedLoop_calls env rest]

/-- Every non-blank item of the walked list whose resolution fails gets
its error line into the log. -/
theorem seedLoop_fail_log (env : ResolveEnv) :
    ∀ (l : List String) (t : String), t ∈ l → jsTrimStr t ≠ "" →
      (getTermData env t).1 = Except.error notFoundMsg →
      ("❌ Erro ao processar " ++ t ++ ": Tente novamente.") ∈ (seedLoop env l).1
  | [], t, ht, _, _ => absurd ht (List.not_mem_nil t)
  | term :: rest, t, ht, hblank, herr => by
    rcases List.mem_cons.mp ht with ht | ht
    · subst ht
      rw [seedLoop, if_neg hblank]
      cases hres : (getTermData env t).1 with
      | ok r => rw [hres] at herr; exact absurd herr (by simp)
      | error e => simp
    · by_cases h : jsTrimStr term = ""
      · rw [seedLoop, if_pos h]
        exact seedLoop_fail_log env rest t ht hblank herr
      · rw [seedLoop, if_neg h]
        refine List.mem_append_right _ ?_
        exact seedLoop_fail_log env rest t ht hblank herr

/-- C7: with the store unconfigured, the seeder emits exactly one log line
(the error message), performs no resolver call and iterates over nothing,
for any callback target and any custom list. -/
theorem seed_unconfigured (env : ResolveEnv) (customList : Option (List String))
    (hc : env.configured = false) :
    seedDatabase env customList =
      (["ERRO: Supabase não configurado. Verifique suas chaves API."], []) := by
  simp [seedDatabase, hc]

/-- Witness for C7 on the one-item list `["X"]`: one log line, no calls. -/
theorem seed_unconfigured_witness :
    seedDatabase c7Env (some ["X"]) =
      (["ERRO: Supabase não configurado. Verifique suas chaves API."], []) ∧
    (seedDatabase c7Env (some ["X"])).1.length = 1 ∧
    (seedDatabase c7Env (some ["X"])).2 = [] :=
  ⟨seed_unconfigured c7Env (some ["X"]) rfl, rfl, rfl⟩

/-- C8: with the store configured and a nonempty custom list, the seeder
calls the resolver on every non-blank item regardless of failures, logs
the error line for every failing item, and the last log line always
reports completion. -/
theorem seeder_isolation (env : ResolveEnv) (l : List String)
    (hc : env.configured = true) (hl : l ≠ []) :
    (seedDatabase env (some l)).2 = l.filter (fun t => !(jsTrimStr t == "")) ∧
    (seedDatabase env (some l)).1.getLast? =
      some "Carga finalizada! Seu banco de dados agora está mais inteligente." ∧
    (∀ t ∈ l, jsTrimStr t ≠ "" →
      (getTermData env t).1 = Except.error notFoundMsg →
      ("❌ Erro ao processar " ++ t ++ ": Tente novamente.")
        ∈ (seedDatabase env (some l)).1) := by
  have hcfg : ¬ env.configured = false := by simp [hc]
  have hlen : 0 < l.length := List.length_pos.mpr hl
  unfold seedDatabase
  rw [if_neg hcfg]
  simp only [if_pos hlen]
  refine ⟨seedLoop_calls env l, ?_, ?_⟩
  · rw [show ("Iniciando carga de " ++ toString l.length ++ " termos...") ::
        "Atenção: Isso consome tokens da sua API Key." ::
          ((seedLoop env l).1 ++
            ["Carga finalizada! Seu banco de dados agora está mais inteligente."]) =
        (("Iniciando carga de " ++ toString l.length ++ " termos...") ::
          "Atenção: Isso consome tokens da sua API Key." :: (seedLoop env l).1) ++
          ["Carga finalizada! Seu banco de dados agora está mais inteligente."] by
        simp]
    exact List.getLast?_concat _
  · intro t ht hblank herr
    refine List.mem_cons_of_mem _ (List.mem_cons_of_mem _ ?_)
    exact List.mem_append_left _ (seedLoop_fail_log env l t ht hblank herr)

/-- Witness for C8 on the list `["Alpha", "Beta", "Gamma"]` whose second
item fails: all three items are attempted, the failure of `"Beta"` is
logged, and completion is reported at the end. -/
theorem seeder_isolation_witness :
    (seedDatabase c8Env (some ["Alpha", "Beta", "Gamma"])).2 =
      ["Alpha", "Beta", "Gamma"] ∧
    ("❌ Erro ao processar Beta: Tente novamente.")
      ∈ (seedDatabase c8Env (some ["Alpha", "Beta", "Gamma"])).1 ∧
    (seedDatabase c8Env (some ["Alpha", "Beta", "Gamma"])).1.getLast? =
      some "Carga finalizada! Seu banco de dados agora está mais inteligente." := by
  have h := seeder_isolation c8Env ["Alpha", "Beta", "Gamma"] rfl (by simp)
  refine ⟨?_, ?_, h.2.1⟩
  · rw [h.1]
    rfl
  · exact h.2.2 "Beta" (by simp) (by decide) rfl

/-- C10: with the store configured, seeding with an empty custom list
behaves exactly like seeding with no custom list: the built-in default
list of 20 terms is walked. -/
theorem seed_empty_custom_uses_default (env : ResolveEnv)
    (hc : env.configured = true) :
    seedDatabase env (some []) = seedDatabase env none ∧
    defaultList.length = 20 := by
  have hcfg : ¬ env.configured = false := by simp [hc]
  constructor
  · unfold seedDatabase
    rw [if_neg hcfg, if_neg hcfg]
    rfl
  · rfl

/-- Witness for C10: in `c10Env` the empty custom list and the missing
custom list give identical runs over the 20 default terms. -/
theorem seed_empty_custom_uses_default_witness :
    seedDatabase c10Env (some []) = seedDatabase c10Env none ∧
    defaultList.length = 20 :=
  seed_empty_custom_uses_default c10Env rfl

